import Mathlib

/-!
Shallow embedding of the review moderation workflow in
src/src/components/Model/ModelReviews/ModelReviews.tsx.

The component renders a list of reviews; each review card carries a
capability menu (delete for the owner, report reasons for everyone else),
a delete flow guarded by a confirmation modal, a report flow with a keyed
loading notification lifecycle, and an optional image carousel section.
Side-effecting calls (cache invalidation, modal control, notifications,
routing, remote dispatch) are embedded as an explicit `Effect` list in the
order the handlers emit them; the react-query mutation callback order
(onMutate, then onSuccess or onError, then onSettled) is the library
contract the component is written against.
-/

/-- Closed enumeration of report reasons used by the component
(ReportReason.NSFW and ReportReason.TOSViolation from @prisma/client). -/
inductive ReportReason where
  | NSFW
  | TOSViolation
  deriving DecidableEq

/-- An attached image (fields of ReviewDetails.imagesOnReviews[].image that
the component reads). -/
structure ReviewImage where
  id : Nat
  url : String
  name : Option String
  deriving DecidableEq

/-- One element of review.imagesOnReviews. -/
structure ImageOnReview where
  image : ReviewImage
  deriving DecidableEq

/-- The author record embedded in a review (review.user). -/
structure ReviewUser where
  id : Nat
  deriving DecidableEq

/-- The fields of ReviewDetails that the moderation workflow reads. -/
structure Review where
  id : Nat
  user : ReviewUser
  modelId : Nat
  rating : Int
  text : String
  nsfw : Bool
  imagesOnReviews : List ImageOnReview
  deriving DecidableEq

/-- An authenticated session (useSession): carries the current user. -/
structure Session where
  user : ReviewUser
  deriving DecidableEq

/-- isOwner = session?.user?.id === review.user.id: false when the session
is absent, otherwise an id comparison. -/
def isOwner (session : Option Session) (review : Review) : Bool :=
  match session with
  | some s => s.user.id == review.user.id
  | none => false

/-- Observable side effects the handlers emit, in order. -/
inductive Effect where
  | invalidateGetAll (modelId : Nat)
  | closeAllModals
  | showNotification (id : Option String) (loading : Bool) (message : String)
  | hideNotification (id : String)
  | showSuccessNotification (title : String) (message : String)
  | showErrorNotification (title : String) (message : String) (reason : Option String)
  | redirect (url : String)
  | dispatchDelete (reviewId : Nat)
  | dispatchReport (reviewId : Nat) (reason : ReportReason)
  deriving DecidableEq

/-- Outcome of a remote mutation call. -/
inductive MutationResult where
  | success
  | failure (message : String)
  deriving DecidableEq

/-- deleteMutation.onSuccess: invalidate review.getAll for review.modelId,
then closeAllModals. -/
def deleteMutationOnSuccess (review : Review) : List Effect :=
  [Effect.invalidateGetAll review.modelId, Effect.closeAllModals]

/-- deleteMutation.onError: showErrorNotification with the fixed title and
the underlying error message. -/
def deleteMutationOnError (message : String) : List Effect :=
  [Effect.showErrorNotification "Could not delete review" message none]

/-- One delete invocation: the remote dispatch followed by the callback of
the outcome that occurred. -/
def runDeleteMutation (review : Review) (r : MutationResult) : List Effect :=
  Effect.dispatchDelete review.id ::
    match r with
    | MutationResult.success => deleteMutationOnSuccess review
    | MutationResult.failure m => deleteMutationOnError m

/-- The configuration handed to openConfirmModal by handleDeleteReview.
Callbacks are embedded as the effect lists they emit when invoked; the
source supplies no onCancel handler, so cancelling emits nothing. -/
structure ConfirmModalConfig where
  title : String
  children : String
  centered : Bool
  confirmLabel : String
  cancelLabel : String
  confirmColor : String
  confirmLoading : Bool
  closeOnConfirm : Bool
  onConfirm : List Effect
  onCancel : List Effect
  deriving DecidableEq

/-- handleDeleteReview: opens the confirmation modal. isLoading is
deleteMutation.isLoading, wired to confirmProps.loading. -/
def handleDeleteReview (review : Review) (isLoading : Bool) : ConfirmModalConfig :=
  { title := "Delete Review"
    children :=
      "Are you sure you want to delete this model? This action is destructive and cannot be reverted."
    centered := true
    confirmLabel := "Delete Review"
    cancelLabel := "No, don\x27t delete it"
    confirmColor := "red"
    confirmLoading := isLoading
    closeOnConfirm := false
    onConfirm := [Effect.dispatchDelete review.id]
    onCancel := [] }

/-- reportMutation.onMutate: show the keyed loading notification. -/
def reportMutationOnMutate : List Effect :=
  [Effect.showNotification (some "sending-review-report") true "Sending report..."]

/-- reportMutation.onSuccess: invalidate review.getAll for review.modelId,
then show the success notification. -/
def reportMutationOnSuccess (review : Review) : List Effect :=
  [Effect.invalidateGetAll review.modelId,
   Effect.showSuccessNotification "Review reported" "Your request has been received"]

/-- reportMutation.onError: showErrorNotification with fixed title, the
underlying error message, and the fixed generic remediation hint. -/
def reportMutationOnError (message : String) : List Effect :=
  [Effect.showErrorNotification "Unable to send report" message
    (some "An unexpected error occurred, please try again")]

/-- reportMutation.onSettled: hide the keyed loading notification. -/
def reportMutationOnSettled : List Effect :=
  [Effect.hideNotification "sending-review-report"]

/-- One report invocation: onMutate, the remote dispatch, the callback of
the outcome that occurred, then onSettled. -/
def runReportMutation (review : Review) (reason : ReportReason) (r : MutationResult) :
    List Effect :=
  reportMutationOnMutate ++ [Effect.dispatchReport review.id reason] ++
    (match r with
      | MutationResult.success => reportMutationOnSuccess review
      | MutationResult.failure m => reportMutationOnError m) ++
    reportMutationOnSettled

/-- handleReportReview: with no session, redirect to the login flow with
the current path as returnUrl and dispatch nothing; otherwise run the
report mutation. -/
def handleReportReview (session : Option Session) (currentPath : String)
    (review : Review) (reason : ReportReason) (r : MutationResult) : List Effect :=
  match session with
  | none => [Effect.redirect ("/login?returnUrl=" ++ currentPath)]
  | some _ => runReportMutation review reason r

/-- The capability entries of the actions menu. -/
inductive MenuItem where
  | deleteReview
  | reportNSFW
  | reportTOSViolation
  deriving DecidableEq

/-- Menu.Dropdown: the delete item when isOwner, the two report items when
!session || !isOwner. -/
def menuDropdown (session : Option Session) (review : Review) : List MenuItem :=
  (if isOwner session review then [MenuItem.deleteReview] else []) ++
    (if session.isNone || !(isOwner session review) then
      [MenuItem.reportNSFW, MenuItem.reportTOSViolation]
    else [])

/-- hasImages = review.imagesOnReviews.length > 0. -/
def hasImages (review : Review) : Bool :=
  decide (0 < review.imagesOnReviews.length)

/-- hasMultipleImages = review.imagesOnReviews.length > 1. -/
def hasMultipleImages (review : Review) : Bool :=
  decide (1 < review.imagesOnReviews.length)

/-- The rendered image section: carousel controls and the count badge. -/
structure ImageSection where
  withControls : Bool
  draggable : Bool
  slideCount : Nat
  countBadge : Option Nat
  deriving DecidableEq

/-- The Card.Section holding the carousel: rendered only when hasImages;
withControls and draggable follow hasMultipleImages; the badge shows
review.imagesOnReviews.length only when hasMultipleImages. -/
def imageSection (review : Review) : Option ImageSection :=
  if hasImages review then
    some
      { withControls := hasMultipleImages review
        draggable := hasMultipleImages review
        slideCount := review.imagesOnReviews.length
        countBadge :=
          if hasMultipleImages review then some review.imagesOnReviews.length else none }
  else none

/-- What ModelReviews renders in its grid column. -/
inductive ReviewsView where
  | grid (items : List Review)
  | placeholder (message : String) (subtext : String)
  deriving DecidableEq

/-- True exactly on the grid branch. -/
def ReviewsView.isGrid : ReviewsView → Bool
  | ReviewsView.grid _ => true
  | _ => false

/-- True exactly on the placeholder branch. -/
def ReviewsView.isPlaceholder : ReviewsView → Bool
  | ReviewsView.placeholder _ _ => true
  | _ => false

/-- ModelReviews: the masonry grid when items.length > 0, otherwise the
empty-state placeholder. -/
def ModelReviews (items : List Review) : ReviewsView :=
  if 0 < items.length then ReviewsView.grid items
  else
    ReviewsView.placeholder "There are no reviews for this model yet."
      "Be the first to let the people know about this model by leaving your review."

/-- Model ids named by invalidateGetAll effects, in order. -/
def invalidatedIds (es : List Effect) : List Nat :=
  es.filterMap fun e =>
    match e with
    | Effect.invalidateGetAll m => some m
    | _ => none

/-- Whether the effect list contains a closeAllModals effect. -/
def closesAllModals (es : List Effect) : Bool :=
  es.any fun e =>
    match e with
    | Effect.closeAllModals => true
    | _ => false

/-- Number of remote report dispatches in the effect list. -/
def dispatchedReportCount (es : List Effect) : Nat :=
  (es.filter fun e =>
    match e with
    | Effect.dispatchReport _ _ => true
    | _ => false).length

/-- Whether an effect shows a loading notification. -/
def Effect.isLoadingShow : Effect → Bool
  | Effect.showNotification _ loading _ => loading
  | _ => false

/-- Whether an effect is a terminal-outcome notification (success or
error). -/
def Effect.isTerminalOutcome : Effect → Bool
  | Effect.showSuccessNotification _ _ => true
  | Effect.showErrorNotification _ _ _ => true
  | _ => false

/-- Erase the human-readable message payload of a notification effect,
keeping everything that drives control flow (titles, keys, the fixed
remediation hint, dispatches, invalidations). -/
def Effect.scrubMessage : Effect → Effect
  | Effect.showNotification i l _ => Effect.showNotification i l ""
  | Effect.showSuccessNotification t _ => Effect.showSuccessNotification t ""
  | Effect.showErrorNotification t _ r => Effect.showErrorNotification t "" r
  | e => e

/-- Final visibility of the notification under the given key after the
effects run in order: showNotification with that key makes it visible,
hideNotification with that key hides it. -/
def notifVisible (key : String) (es : List Effect) : Bool :=
  es.foldl
    (fun acc e =>
      match e with
      | Effect.showNotification (some k) _ _ => if k = key then true else acc
      | Effect.hideNotification k => if k = key then false else acc
      | _ => acc)
    false

/-- The set of open modals after the effects run: closeAllModals empties
it unconditionally; no other effect in this workflow opens or closes
modals by itself. -/
def modalsAfter (openModals : List String) (es : List Effect) : List String :=
  es.foldl
    (fun ms e =>
      match e with
      | Effect.closeAllModals => []
      | _ => ms)
    openModals

/-- Sample author used by the witnesses. -/
def sampleUser : ReviewUser := { id := 1 }

/-- Sample attached image used by the witnesses. -/
def sampleImage (n : Nat) : ReviewImage :=
  { id := n, url := "https://example.com/img", name := none }

/-- Sample review with no attached images. -/
def sampleReview : Review :=
  { id := 7, user := sampleUser, modelId := 3, rating := 4, text := "Great",
    nsfw := false, imagesOnReviews := [] }

/-- Sample review with one attached image. -/
def sampleReviewOneImage : Review :=
  { sampleReview with imagesOnReviews := [{ image := sampleImage 1 }] }

/-- Sample review with two attached images. -/
def sampleReviewTwoImages : Review :=
  { sampleReview with
    imagesOnReviews := [{ image := sampleImage 1 }, { image := sampleImage 2 }] }

/-- Session of the author of sampleReview. -/
def sampleSession : Session := { user := sampleUser }

/-- Session of an actor who is not the author of sampleReview. -/
def otherSession : Session := { user := { id := 2 } }

/-- C1: the actions menu offers the delete capability iff the current
actor is the author of the review, and offers each report-reason
capability iff the actor is anonymous or is not the author. -/
theorem menu_capability_gating (session : Option Session) (review : Review) :
    (MenuItem.deleteReview ∈ menuDropdown session review ↔
      ∃ s, session = some s ∧ s.user.id = review.user.id) ∧
    (MenuItem.reportNSFW ∈ menuDropdown session review ↔
      (session = none ∨ ∃ s, session = some s ∧ s.user.id ≠ review.user.id)) ∧
    (MenuItem.reportTOSViolation ∈ menuDropdown session review ↔
      (session = none ∨ ∃ s, session = some s ∧ s.user.id ≠ review.user.id)) := by
  cases session with
  | none => simp [menuDropdown, isOwner]
  | some s =>
    by_cases h : s.user.id = review.user.id <;>
      simp [menuDropdown, isOwner, h]

/-- C1 witness: the owner of sampleReview is offered the delete
capability. -/
theorem menu_capability_gating_witness :
    MenuItem.deleteReview ∈ menuDropdown (some sampleSession) sampleReview :=
  (menu_capability_gating (some sampleSession) sampleReview).1.mpr ⟨sampleSession, rfl, rfl⟩

/-- C2: a successful delete invalidates the review cache for exactly the
owning model id and closes the confirmation gate; a failed delete
invalidates nothing, closes nothing, and shows an error notification
titled Could not delete review carrying the underlying message. -/
theorem delete_mutation_outcomes (review : Review) (m : String) :
    invalidatedIds (runDeleteMutation review MutationResult.success) = [review.modelId] ∧
    closesAllModals (runDeleteMutation review MutationResult.success) = true ∧
    invalidatedIds (runDeleteMutation review (MutationResult.failure m)) = [] ∧
    closesAllModals (runDeleteMutation review (MutationResult.failure m)) = false ∧
    Effect.showErrorNotification "Could not delete review" m none ∈
      runDeleteMutation review (MutationResult.failure m) := by
  refine ⟨rfl, rfl, rfl, rfl, ?_⟩
  simp [runDeleteMutation, deleteMutationOnError]

/-- C2 witness: a failed delete on sampleReview invalidates nothing. -/
theorem delete_mutation_outcomes_witness :
    invalidatedIds (runDeleteMutation sampleReview (MutationResult.failure "boom")) = [] :=
  (delete_mutation_outcomes sampleReview "boom").2.2.1

/-- C3: a report attempt with no active session emits exactly the login
redirect carrying the current path and dispatches no remote report. -/
theorem anonymous_report_redirects (currentPath : String) (review : Review)
    (reason : ReportReason) (r : MutationResult) :
    handleReportReview none currentPath review reason r =
      [Effect.redirect ("/login?returnUrl=" ++ currentPath)] ∧
    dispatchedReportCount (handleReportReview none currentPath review reason r) = 0 :=
  ⟨rfl, rfl⟩

/-- C3 witness: an anonymous NSFW report on sampleReview only
redirects. -/
theorem anonymous_report_redirects_witness :
    handleReportReview none "/models/3" sampleReview ReportReason.NSFW
        MutationResult.success =
      [Effect.redirect ("/login?returnUrl=" ++ "/models/3")] :=
  (anonymous_report_redirects "/models/3" sampleReview ReportReason.NSFW
    MutationResult.success).1

/-- C4: every report invocation ends with the loading notification under
the key sending-review-report hidden, and its lifecycle is strictly
ordered: loading shown, then exactly one terminal outcome notification
(success or error), then the loading dismissal. -/
theorem report_lifecycle_order (review : Review) (reason : ReportReason)
    (r : MutationResult) :
    notifVisible "sending-review-report" (runReportMutation review reason r) = false ∧
    ∃ i j k : Nat, i < j ∧ j < k ∧
      (runReportMutation review reason r)[i]? =
        some (Effect.showNotification (some "sending-review-report") true
          "Sending report...") ∧
      (∃ e, (runReportMutation review reason r)[j]? = some e ∧
        Effect.isTerminalOutcome e = true) ∧
      (runReportMutation review reason r)[k]? =
        some (Effect.hideNotification "sending-review-report") ∧
      ((runReportMutation review reason r).filter Effect.isTerminalOutcome).length = 1 := by
  cases r with
  | success =>
    exact ⟨rfl, 0, 3, 4, by omega, by omega, rfl, ⟨_, rfl, rfl⟩, rfl, rfl⟩
  | failure m =>
    exact ⟨rfl, 0, 2, 3, by omega, by omega, rfl, ⟨_, rfl, rfl⟩, rfl, rfl⟩

/-- C4 witness: a successful NSFW report on sampleReview ends with the
loading notification hidden. -/
theorem report_lifecycle_order_witness :
    notifVisible "sending-review-report"
      (runReportMutation sampleReview ReportReason.NSFW MutationResult.success) = false :=
  (report_lifecycle_order sampleReview ReportReason.NSFW MutationResult.success).1

/-- C5: a successful report invalidates the review cache for the model of
the review and then shows the success notification, in that order; the
success notification is not a loading notification. -/
theorem report_success_order (review : Review) (reason : ReportReason) :
    (runReportMutation review reason MutationResult.success)[2]? =
      some (Effect.invalidateGetAll review.modelId) ∧
    (runReportMutation review reason MutationResult.success)[3]? =
      some (Effect.showSuccessNotification "Review reported"
        "Your request has been received") ∧
    Effect.isLoadingShow
      (Effect.showSuccessNotification "Review reported"
        "Your request has been received") = false :=
  ⟨rfl, rfl, rfl⟩

/-- C5 witness: a successful TOS report on sampleReview invalidates the
cache at position 2. -/
theorem report_success_order_witness :
    (runReportMutation sampleReview ReportReason.TOSViolation MutationResult.success)[2]? =
      some (Effect.invalidateGetAll sampleReview.modelId) :=
  (report_success_order sampleReview ReportReason.TOSViolation).1

/-- C6: a failed report shows an error notification with the fixed title
Unable to send report and the fixed generic remediation hint, carrying the
raw error message for display; no cache invalidation occurs, and the
effect sequence with messages erased is independent of the raw message, so
the message never alters control flow. -/
theorem report_failure_notification (review : Review) (reason : ReportReason)
    (m : String) :
    Effect.showErrorNotification "Unable to send report" m
        (some "An unexpected error occurred, please try again") ∈
      runReportMutation review reason (MutationResult.failure m) ∧
    invalidatedIds (runReportMutation review reason (MutationResult.failure m)) = [] ∧
    ∀ m2 : String,
      (runReportMutation review reason (MutationResult.failure m)).map
          Effect.scrubMessage =
        (runReportMutation review reason (MutationResult.failure m2)).map
          Effect.scrubMessage := by
  refine ⟨?_, rfl, fun m2 => rfl⟩
  simp [runReportMutation, reportMutationOnMutate, reportMutationOnError,
    reportMutationOnSettled]

/-- C6 witness: a failed TOS report on sampleReview shows the fixed-title
error notification carrying the raw message. -/
theorem report_failure_notification_witness :
    Effect.showErrorNotification "Unable to send report" "boom"
        (some "An unexpected error occurred, please try again") ∈
      runReportMutation sampleReview ReportReason.TOSViolation
        (MutationResult.failure "boom") :=
  (report_failure_notification sampleReview ReportReason.TOSViolation "boom").1

/-- C7: confirming the delete modal emits exactly one delete dispatch, the
modal does not auto-dismiss on confirm (closeOnConfirm is false), the
confirm control carries the in-flight flag of the mutation, and cancelling
emits nothing. -/
theorem confirm_modal_contract (review : Review) (isLoading : Bool) :
    (handleDeleteReview review isLoading).onConfirm = [Effect.dispatchDelete review.id] ∧
    (handleDeleteReview review isLoading).onConfirm.length = 1 ∧
    (handleDeleteReview review isLoading).closeOnConfirm = false ∧
    (handleDeleteReview review isLoading).confirmLoading = isLoading ∧
    (handleDeleteReview review isLoading).onCancel = [] :=
  ⟨rfl, rfl, rfl, rfl, rfl⟩

/-- C7 witness: while the delete mutation is in flight the confirm control
of the modal opened for sampleReview is marked busy. -/
theorem confirm_modal_contract_witness :
    (handleDeleteReview sampleReview true).confirmLoading = true :=
  (confirm_modal_contract sampleReview true).2.2.2.1

/-- C8: with zero attached images no image section is rendered; with
exactly one image the section is rendered without carousel controls and
without a count badge; with two or more images controls are rendered and
the badge shows the image count. -/
theorem image_section_cases (review : Review) :
    (review.imagesOnReviews.length = 0 → imageSection review = none) ∧
    (review.imagesOnReviews.length = 1 →
      imageSection review =
        some { withControls := false, draggable := false, slideCount := 1,
               countBadge := none }) ∧
    (2 ≤ review.imagesOnReviews.length →
      imageSection review =
        some { withControls := true, draggable := true,
               slideCount := review.imagesOnReviews.length,
               countBadge := some review.imagesOnReviews.length }) := by
  refine ⟨fun h0 => ?_, fun h1 => ?_, fun h2 => ?_⟩
  · simp [imageSection, hasImages, h0]
  · simp [imageSection, hasImages, hasMultipleImages, h1]
  · have ha : hasImages review = true := by
      simp only [hasImages, decide_eq_true_eq]
      omega
    have hb : hasMultipleImages review = true := by
      simp only [hasMultipleImages, decide_eq_true_eq]
      omega
    simp [imageSection, ha, hb]

/-- C8 witness: the three image-count cases evaluated on concrete
reviews with zero, one and two images. -/
theorem image_section_cases_witness :
    imageSection sampleReview = none ∧
    imageSection sampleReviewOneImage =
      some { withControls := false, draggable := false, slideCount := 1,
             countBadge := none } ∧
    imageSection sampleReviewTwoImages =
      some { withControls := true, draggable := true, slideCount := 2,
             countBadge := some 2 } :=
  ⟨(image_section_cases sampleReview).1 rfl,
   (image_section_cases sampleReviewOneImage).2.1 rfl,
   (image_section_cases sampleReviewTwoImages).2.2 (by decide)⟩

/-- C9: an empty review list renders the placeholder message and no grid;
a non-empty list renders the grid of the items and no placeholder. -/
theorem model_reviews_empty_vs_grid (items : List Review) :
    (items = [] →
      ModelReviews items =
        ReviewsView.placeholder "There are no reviews for this model yet."
          "Be the first to let the people know about this model by leaving your review." ∧
      (ModelReviews items).isGrid = false) ∧
    (items ≠ [] →
      ModelReviews items = ReviewsView.grid items ∧
      (ModelReviews items).isPlaceholder = false) := by
  refine ⟨fun h => ?_, fun h => ?_⟩
  · subst h
    exact ⟨rfl, rfl⟩
  · have hl : 0 < items.length := List.length_pos.mpr h
    rw [ModelReviews, if_pos hl]
    exact ⟨rfl, rfl⟩

/-- C9 witness: the empty list renders the placeholder and a singleton
list renders the grid. -/
theorem model_reviews_empty_vs_grid_witness :
    ModelReviews [] =
      ReviewsView.placeholder "There are no reviews for this model yet."
        "Be the first to let the people know about this model by leaving your review." ∧
    ModelReviews [sampleReview] = ReviewsView.grid [sampleReview] :=
  ⟨((model_reviews_empty_vs_grid []).1 rfl).1,
   ((model_reviews_empty_vs_grid [sampleReview]).2 (by simp)).1⟩

/-- C10: a successful delete runs closeAllModals, so whatever modals were
open beforehand, none remain open afterwards: the close is not scoped to
the delete confirmation gate. -/
theorem delete_success_closes_every_modal (review : Review)
    (openModals : List String) :
    modalsAfter openModals (runDeleteMutation review MutationResult.success) = [] :=
  rfl

/-- C10 witness: an unrelated modal open during a successful delete on
sampleReview is dismissed along with the gate. -/
theorem delete_success_closes_every_modal_witness :
    modalsAfter ["unrelated-modal", "delete-confirmation"]
      (runDeleteMutation sampleReview MutationResult.success) = [] :=
  delete_success_closes_every_modal sampleReview
    ["unrelated-modal", "delete-confirmation"]
